import Mathlib

/-!
Verification of the Glance Clock BLE integration (custom_components/glance_clock).

Shallow embedding of:
  * utils/color_utils.py           — hex/RGB conversion, linear color interpolation
  * notify.py                      — text/icon encoding, settings framing decode,
                                     settings read-modify-write, guarded send operations
  * bluetooth/connection_manager.py — settings cache, send path, reconnect backoff
  * services/forecast.py           — 24-slot temperature array and gradient range

Python ints are modelled as Nat/Int.  The color interpolation's IEEE-754
double arithmetic is modelled over ℚ; the theorems about it carry explicit
magnitude hypotheses that cut the quantification down to a domain on which
every double operation performed by the source is exact, so that the
rational model and the float program coincide there (outside it, float
rounding and overflow take over and are not modelled).  Python functions
that can raise are modelled as Option-returning functions (none = an
exception was raised).
-/

set_option autoImplicit false

namespace GlanceClock

/-! ## Color utilities (utils/color_utils.py) -/

/-- Python's `int(...)` applied to a rational value: truncation toward zero. -/
def pyInt (q : ℚ) : ℤ :=
  if 0 ≤ q then ⌊q⌋ else -⌊-q⌋

/-- Embedding of `hex_to_rgb`: `((c >> 16) & 255, (c >> 8) & 255, c & 255)`. -/
def hex_to_rgb (c : Nat) : Nat × Nat × Nat :=
  ((c >>> 16) &&& 255, (c >>> 8) &&& 255, c &&& 255)

/-- Embedding of `rgb_to_hex`: `(r << 16) | (g << 8) | b`. -/
def rgb_to_hex (r g b : Nat) : Nat :=
  (r <<< 16) ||| (g <<< 8) ||| b

/-- Embedding of `interpolate_color`.  The source computes the value
arguments in IEEE-754 doubles; they are modelled as exact rationals, so
this definition agrees with the source only on inputs where every double
operation is exact — the C9 theorems restrict their quantifiers to such a
domain (integer range endpoints of magnitude at most `2 ^ 50`, 24-bit
colors), and outside it the float program can diverge from the model
(e.g. `max_val - min_val` can overflow to infinity, giving factor 0, and
ulp-scale ranges round the factor away from 1/2).  The colors are the
packed integers of the source.  The channel computation
`int(min_c + (max_c - min_c) * factor)` is `pyInt`; the result channels
are nonnegative (the factor is clamped into `[0,1]`), so the final
`Int.toNat` coercions are exact. -/
def interpolate_color (value minVal maxVal : ℚ) (minColor maxColor : Nat) : Nat :=
  if maxVal = minVal then minColor
  else
    let v := max minVal (min maxVal value)
    let factor := (v - minVal) / (maxVal - minVal)
    let minRGB := hex_to_rgb minColor
    let maxRGB := hex_to_rgb maxColor
    let r := pyInt ((minRGB.1 : ℚ) + ((maxRGB.1 : ℚ) - (minRGB.1 : ℚ)) * factor)
    let g := pyInt ((minRGB.2.1 : ℚ) + ((maxRGB.2.1 : ℚ) - (minRGB.2.1 : ℚ)) * factor)
    let b := pyInt ((minRGB.2.2 : ℚ) + ((maxRGB.2.2 : ℚ) - (minRGB.2.2 : ℚ)) * factor)
    rgb_to_hex r.toNat g.toNat b.toNat

/-! Bridge lemmas turning the bitwise color packing into plain arithmetic. -/

lemma or_two_pow_eq_add (n : Nat) : ∀ (a b : Nat), b < 2 ^ n → 2 ^ n * a ||| b = 2 ^ n * a + b := by
  induction n with
  | zero =>
    intro a b hb
    interval_cases b
    simp
  | succ n ih =>
    intro a b hb
    have h2 : 2 ^ (n + 1) * a = 2 * (2 ^ n * a) := by ring
    have hhalf : 2 ^ (n + 1) * a / 2 = 2 ^ n * a := by omega
    have hdiv : (2 ^ (n + 1) * a ||| b) / 2 = 2 ^ n * a + b / 2 := by
      rw [Nat.or_div_two, hhalf, ih a (b / 2) (by omega)]
    have he : 2 ^ (n + 1) * a % 2 = 0 := by omega
    have hmod : (2 ^ (n + 1) * a ||| b) % 2 = b % 2 := by
      rcases Nat.mod_two_eq_zero_or_one b with hb2 | hb2
      · rcases Nat.mod_two_eq_zero_or_one (2 ^ (n + 1) * a ||| b) with h | h
        · omega
        · rw [Nat.or_mod_two_eq_one] at h
          omega
      · have h1 : (2 ^ (n + 1) * a ||| b) % 2 = 1 := Nat.or_mod_two_eq_one.mpr (Or.inr hb2)
        omega
    have hx := Nat.div_add_mod (2 ^ (n + 1) * a ||| b) 2
    rw [hdiv, hmod] at hx
    omega

lemma and_255_eq_mod (x : Nat) : x &&& 255 = x % 256 := by
  have h : (255 : Nat) = 2 ^ 8 - 1 := by norm_num
  rw [h, Nat.and_pow_two_sub_one_eq_mod]

lemma rgb_to_hex_eq_arith (r g b : Nat) (hr : r < 256) (hg : g < 256) (hb : b < 256) :
    rgb_to_hex r g b = r * 65536 + g * 256 + b := by
  unfold rgb_to_hex
  rw [Nat.shiftLeft_eq, Nat.shiftLeft_eq]
  rw [Nat.mul_comm r (2 ^ 16), Nat.mul_comm g (2 ^ 8)]
  have hglt : 2 ^ 8 * g < 2 ^ 16 := by
    have h8 : (2 : Nat) ^ 8 = 256 := by norm_num
    have h16 : (2 : Nat) ^ 16 = 65536 := by norm_num
    omega
  rw [or_two_pow_eq_add 16 r (2 ^ 8 * g) hglt]
  have h2 : 2 ^ 16 * r + 2 ^ 8 * g = 2 ^ 8 * (2 ^ 8 * r + g) := by ring
  rw [h2, or_two_pow_eq_add 8 (2 ^ 8 * r + g) b hb]

lemma hex_to_rgb_eq_arith (c : Nat) :
    hex_to_rgb c = (c / 65536 % 256, c / 256 % 256, c % 256) := by
  unfold hex_to_rgb
  rw [Nat.shiftRight_eq_div_pow, Nat.shiftRight_eq_div_pow,
      and_255_eq_mod, and_255_eq_mod, and_255_eq_mod]

lemma hex_to_rgb_rgb_to_hex (r g b : Nat) (hr : r < 256) (hg : g < 256) (hb : b < 256) :
    hex_to_rgb (rgb_to_hex r g b) = (r, g, b) := by
  rw [rgb_to_hex_eq_arith r g b hr hg hb, hex_to_rgb_eq_arith]
  simp only [Prod.mk.injEq]
  refine ⟨?_, ?_, ?_⟩ <;> omega

lemma rgb_to_hex_hex_to_rgb (c : Nat) (hc : c < 2 ^ 24) :
    rgb_to_hex (hex_to_rgb c).1 (hex_to_rgb c).2.1 (hex_to_rgb c).2.2 = c := by
  rw [hex_to_rgb_eq_arith]
  simp only
  rw [rgb_to_hex_eq_arith _ _ _ (by omega) (by omega) (by omega)]
  have h24 : (2 : Nat) ^ 24 = 16777216 := by norm_num
  omega

lemma hex_to_rgb_lt (c : Nat) :
    (hex_to_rgb c).1 < 256 ∧ (hex_to_rgb c).2.1 < 256 ∧ (hex_to_rgb c).2.2 < 256 := by
  rw [hex_to_rgb_eq_arith]
  refine ⟨?_, ?_, ?_⟩ <;> simp only <;> omega

lemma pyInt_natCast (n : Nat) : pyInt (n : ℚ) = (n : ℤ) := by
  unfold pyInt
  rw [if_pos (by positivity)]
  exact_mod_cast Int.floor_natCast n

lemma pyInt_half_natCast (n : Nat) : pyInt ((n : ℚ) / 2) = ((n / 2 : Nat) : ℤ) := by
  unfold pyInt
  rw [if_pos (by positivity)]
  have h2 : (2 : ℚ) = ((2 : ℕ) : ℚ) := by norm_num
  rw [h2, Rat.floor_natCast_div_natCast n 2]
  exact (Int.ofNat_div n 2).symm

/-! Behaviour of `interpolate_color` at the bottom of the range and at the midpoint. -/

lemma interpolate_at_min (minVal maxVal : ℚ) (cA cB : Nat)
    (hlt : minVal < maxVal) (hA : cA < 2 ^ 24) :
    interpolate_color minVal minVal maxVal cA cB = cA := by
  simp only [interpolate_color]
  rw [if_neg (ne_of_gt hlt)]
  have hv : max minVal (min maxVal minVal) = minVal := by
    rw [min_eq_right (le_of_lt hlt), max_self]
  rw [hv]
  simp only [sub_self, zero_div, mul_zero, add_zero, pyInt_natCast, Int.toNat_natCast]
  exact rgb_to_hex_hex_to_rgb cA hA

lemma interpolate_at_mid (minVal maxVal : ℚ) (cA cB : Nat) (hlt : minVal < maxVal) :
    interpolate_color ((minVal + maxVal) / 2) minVal maxVal cA cB =
      rgb_to_hex (((hex_to_rgb cA).1 + (hex_to_rgb cB).1) / 2)
                 (((hex_to_rgb cA).2.1 + (hex_to_rgb cB).2.1) / 2)
                 (((hex_to_rgb cA).2.2 + (hex_to_rgb cB).2.2) / 2) := by
  simp only [interpolate_color]
  rw [if_neg (ne_of_gt hlt)]
  have hv : max minVal (min maxVal ((minVal + maxVal) / 2)) = (minVal + maxVal) / 2 := by
    rw [min_eq_right (by linarith), max_eq_right (by linarith)]
  rw [hv]
  have hfac : ((minVal + maxVal) / 2 - minVal) / (maxVal - minVal) = 1 / 2 := by
    have hne : maxVal - minVal ≠ 0 := sub_ne_zero.mpr (ne_of_gt hlt)
    field_simp
    ring
  rw [hfac]
  have hchan : ∀ a b : Nat,
      pyInt ((a : ℚ) + ((b : ℚ) - (a : ℚ)) * (1 / 2)) = (((a + b) / 2 : Nat) : ℤ) := by
    intro a b
    have he : (a : ℚ) + ((b : ℚ) - (a : ℚ)) * (1 / 2) = ((a + b : Nat) : ℚ) / 2 := by
      push_cast
      ring
    rw [he, pyInt_half_natCast]
  simp only [hchan, Int.toNat_natCast]

/-- C9 (corrected), stated over integer range endpoints of magnitude at
most `2 ^ 50`.  On this domain every IEEE-754 double operation performed by
the source is exact — the endpoints and their difference are integers below
`2 ^ 53`, the midpoint is a half-integer, the division
`((max - min) / 2) / (max - min)` has the representable exact value `1/2`,
and the channel multiply-adds move in half-integer steps within `[0, 255]` —
so the rational model coincides with the float program here.  At
`value = min_val` the interpolation returns `colorA` exactly; at the
midpoint of `[min_val, max_val]` each RGB channel of the result is the
FLOOR of the average of the corresponding channels of `colorA` and
`colorB` (Python's `int()` truncates), which is the exact midpoint only
when the channel sum is even.  Outside the stated domain, float rounding
and overflow make the source diverge from any exact-arithmetic statement
(e.g. an overflowing `max_val - min_val` yields factor 0 and returns
`colorA` at the midpoint), so no claim is made there. -/
theorem C9_amended (minI maxI : ℤ) (cA cB : Nat)
    (hlt : minI < maxI) (hlo : -(2 ^ 50) ≤ minI) (hhi : maxI ≤ 2 ^ 50)
    (hA : cA < 2 ^ 24) (hB : cB < 2 ^ 24) :
    interpolate_color (minI : ℚ) (minI : ℚ) (maxI : ℚ) cA cB = cA ∧
    hex_to_rgb (interpolate_color (((minI : ℚ) + (maxI : ℚ)) / 2)
        (minI : ℚ) (maxI : ℚ) cA cB) =
      (((hex_to_rgb cA).1 + (hex_to_rgb cB).1) / 2,
       ((hex_to_rgb cA).2.1 + (hex_to_rgb cB).2.1) / 2,
       ((hex_to_rgb cA).2.2 + (hex_to_rgb cB).2.2) / 2) := by
  have hq : (minI : ℚ) < (maxI : ℚ) := by exact_mod_cast hlt
  refine ⟨interpolate_at_min _ _ cA cB hq hA, ?_⟩
  rw [interpolate_at_mid _ _ cA cB hq]
  have bA := hex_to_rgb_lt cA
  have bB := hex_to_rgb_lt cB
  exact hex_to_rgb_rgb_to_hex _ _ _ (by omega) (by omega) (by omega)

/-- C9 counterexample: with `colorA = 0x000000`, `colorB = 0x010101` and range
`[0, 2]`, the midpoint interpolation yields red channel 0, whose double is not
the sum `0 + 1` of the input red channels — the result is not the exact
component-wise midpoint claimed.  Every IEEE-754 double operation of the
source is exact at these inputs (factor exactly 0.5, channels in half-integer
steps), so this run of the rational model reproduces the float program. -/
theorem C9_counterexample :
    (hex_to_rgb (interpolate_color ((0 + 2) / 2) 0 2 0 65793)).1 * 2 ≠
      (hex_to_rgb 0).1 + (hex_to_rgb 65793).1 := by
  have hmid := interpolate_at_mid 0 2 0 65793 (by norm_num)
  have h0 : hex_to_rgb 0 = (0, 0, 0) := by rw [hex_to_rgb_eq_arith]
  have h1 : hex_to_rgb 65793 = (1, 1, 1) := by rw [hex_to_rgb_eq_arith]
  have h2 : hex_to_rgb (rgb_to_hex 0 0 0) = (0, 0, 0) :=
    hex_to_rgb_rgb_to_hex 0 0 0 (by norm_num) (by norm_num) (by norm_num)
  rw [hmid]
  simp [h0, h1, h2]

/-- C9 witness: the amended theorem applied at `min_val = 0`, `max_val = 2`,
`colorA = 0x000000`, `colorB = 0x010101`. -/
theorem C9_witness :
    ((0 : ℤ) < 2 ∧ -(2 ^ 50) ≤ (0 : ℤ) ∧ (2 : ℤ) ≤ 2 ^ 50 ∧
     (0 : Nat) < 2 ^ 24 ∧ (65793 : Nat) < 2 ^ 24) ∧
    (interpolate_color ((0 : ℤ) : ℚ) ((0 : ℤ) : ℚ) ((2 : ℤ) : ℚ) 0 65793 = 0 ∧
     hex_to_rgb (interpolate_color ((((0 : ℤ) : ℚ) + ((2 : ℤ) : ℚ)) / 2)
         ((0 : ℤ) : ℚ) ((2 : ℤ) : ℚ) 0 65793) =
       (((hex_to_rgb 0).1 + (hex_to_rgb 65793).1) / 2,
        ((hex_to_rgb 0).2.1 + (hex_to_rgb 65793).2.1) / 2,
        ((hex_to_rgb 0).2.2 + (hex_to_rgb 65793).2.2) / 2)) :=
  ⟨⟨by norm_num, by norm_num, by norm_num, by norm_num, by norm_num⟩,
   C9_amended 0 2 0 65793 (by norm_num) (by norm_num) (by norm_num)
     (by norm_num) (by norm_num)⟩

/-! ## Text/icon encoding (notify.py, `text_with_icons_to_bytes`)

The Python function scans the input with the regex `\[icon:(\d+)\]`
(`re.finditer`: leftmost non-overlapping matches), emits `ord(c) & 0x7F`
for every literal character and the parsed integer for every token, and
finally materialises the list with `bytes(parts)` — which raises
`ValueError` when any part is outside `0..255`.  The regex digit class is
modelled as the ASCII digits `0-9`; Python's `\d` on str patterns (and
`int()`) additionally accepts every Unicode decimal digit, so the model
agrees with the source exactly on inputs whose characters are all ASCII,
and the universally quantified theorem about the scanner restricts itself
to that domain (non-ASCII digit tokens such as an `[icon:...]` written
with Arabic-Indic digits are tokens for the source but literal text for
this model).  The scanner below consumes at least one character per step,
so the character count of the input is a sufficient fuel bound. -/

/-- Value of a nonempty ASCII digit run, as Python's `int()` parses it. -/
def digitsVal (ds : List Char) : Nat :=
  ds.foldl (fun a c => 10 * a + (c.toNat - 48)) 0

/-- Attempt of the regex `\[icon:(\d+)\]` anchored at the head of the input,
with the digit class narrowed to ASCII `0-9` (faithful to the source on
all-ASCII input; see the section comment for the Unicode caveat).  Returns
the token value and the remaining characters on success: the literal prefix
`[icon:`, then a nonempty maximal digit run, then `]`. -/
def matchIcon (l : List Char) : Option (Nat × List Char) :=
  if l.take 6 = ['[', 'i', 'c', 'o', 'n', ':'] then
    match (l.drop 6).dropWhile Char.isDigit, (l.drop 6).takeWhile Char.isDigit with
    | ']' :: r3, ds => if ds.isEmpty then none else some (digitsVal ds, r3)
    | _, _ => none
  else none

/-- One pass of the scanner: token values for matches, `ord(c) & 0x7F` for
literal characters.  `fuel` bounds the recursion; `fuel = l.length` is
always sufficient because every step consumes at least one character. -/
def iconScanF : Nat → List Char → List Nat
  | 0, _ => []
  | _, [] => []
  | fuel + 1, c :: rest =>
    match matchIcon (c :: rest) with
    | some (v, r) => v :: iconScanF fuel r
    | none => (c.toNat &&& 127) :: iconScanF fuel rest

/-- The byte parts produced by the scan of the whole input. -/
def iconScan (l : List Char) : List Nat :=
  iconScanF l.length l

/-- Only the token values produced by the scan (used to state when
`bytes(parts)` succeeds). -/
def tokenValsF : Nat → List Char → List Nat
  | 0, _ => []
  | _, [] => []
  | fuel + 1, c :: rest =>
    match matchIcon (c :: rest) with
    | some (v, r) => v :: tokenValsF fuel r
    | none => tokenValsF fuel rest

/-- Token values of the whole input. -/
def tokenVals (l : List Char) : List Nat :=
  tokenValsF l.length l

/-- Embedding of `text_with_icons_to_bytes`: the scan followed by the
`bytes(parts)` conversion; `none` models the `ValueError` raised when a
part exceeds 255. -/
def text_with_icons_to_bytes (l : List Char) : Option (List Nat) :=
  let parts := iconScan l
  if parts.all (fun p => p < 256) then some parts else none

lemma matchIcon_shorter {l : List Char} {v : Nat} {r : List Char}
    (h : matchIcon l = some (v, r)) : r.length < l.length := by
  unfold matchIcon at h
  split at h
  · rename_i htake
    have hlen6 : 6 ≤ l.length := by
      have hl := congrArg List.length htake
      simp [List.length_take] at hl
      omega
    split at h
    · rename_i tail heq
      have hsplit := congrArg List.length
        (List.takeWhile_append_dropWhile (p := Char.isDigit) (l := l.drop 6))
      rw [heq, List.length_append] at hsplit
      simp only [List.length_cons, List.length_drop] at hsplit
      split at h
      · exact absurd h (by simp)
      · simp only [Option.some.injEq, Prod.mk.injEq] at h
        obtain ⟨hv, hr⟩ := h
        subst hr
        omega
    · exact absurd h (by simp)
  · exact absurd h (by simp)

lemma iconScanF_lt_of_tokenValsF (fuel : Nat) :
    ∀ l : List Char, (∀ v ∈ tokenValsF fuel l, v < 256) →
      ∀ x ∈ iconScanF fuel l, x < 256 := by
  induction fuel with
  | zero => intro l _ x hx; simp [iconScanF] at hx
  | succ fuel ih =>
    intro l hv x hx
    cases l with
    | nil => simp [iconScanF] at hx
    | cons c rest =>
      cases hm : matchIcon (c :: rest) with
      | some vr =>
        obtain ⟨v, r⟩ := vr
        rw [iconScanF, hm] at hx
        rw [tokenValsF, hm] at hv
        rcases List.mem_cons.mp hx with h | h
        · subst h
          exact hv x (List.mem_cons_self _ _)
        · exact ih r (fun w hw => hv w (List.mem_cons_of_mem _ hw)) x h
      | none =>
        rw [iconScanF, hm] at hx
        rw [tokenValsF, hm] at hv
        rcases List.mem_cons.mp hx with h | h
        · subst h
          have : c.toNat &&& 127 ≤ 127 := Nat.and_le_right
          omega
        · exact ih rest hv x h

lemma iconScanF_literal (fuel : Nat) :
    ∀ l : List Char, l.length ≤ fuel → tokenValsF fuel l = [] →
      iconScanF fuel l = l.map (fun c => c.toNat &&& 127) := by
  induction fuel with
  | zero =>
    intro l hl _
    have : l = [] := List.eq_nil_of_length_eq_zero (by omega)
    subst this
    rfl
  | succ fuel ih =>
    intro l hl htok
    cases l with
    | nil => rfl
    | cons c rest =>
      cases hm : matchIcon (c :: rest) with
      | some vr =>
        obtain ⟨v, r⟩ := vr
        rw [tokenValsF, hm] at htok
        exact absurd htok (by simp)
      | none =>
        rw [tokenValsF, hm] at htok
        rw [iconScanF, hm, List.map_cons]
        have hlen : rest.length ≤ fuel := by
          simp at hl
          omega
        rw [ih rest hlen htok]

/-- C6: the text encoding of `"Hi[icon:7]!"` is exactly the bytes
`[0x48, 0x69, 0x07, 0x21]` — each literal character becomes its 7-bit-masked
ASCII code and the `[icon:7]` token becomes the single byte `7`. -/
theorem C6_text_encode :
    text_with_icons_to_bytes
      ['H', 'i', '[', 'i', 'c', 'o', 'n', ':', '7', ']', '!'] =
      some [0x48, 0x69, 0x07, 0x21] := by
  decide

/-- C7 counterexample: on input `"[icon:300]"` the token parses to 300, and
`bytes(parts)` raises `ValueError` (modelled as `none`) — the function does
throw for token values outside 0–255, contrary to the claim. -/
theorem C7_counterexample :
    text_with_icons_to_bytes ['[', 'i', 'c', 'o', 'n', ':', '3', '0', '0', ']'] = none := by
  decide

/-- C7 (corrected), stated over all-ASCII inputs — the domain on which the
model's ASCII digit class coincides with Python's `\d` and `digitsVal`
with `int()` (on non-ASCII input the source can recognise Unicode-digit
tokens, e.g. `[icon:` with Arabic-Indic digits spelling 300, and raise,
which this model does not capture): the text encoding never throws
PROVIDED every well-formed `[icon:N]` token has `N < 256`; under that
condition it returns the scanned bytes, and an input with no well-formed
token (unterminated or malformed tokens included) is encoded entirely as
literal 7-bit-masked characters.  The ASCII hypothesis is not needed by
the proof — it is the fidelity domain of the embedding. -/
theorem C7_amended (l : List Char) (hascii : ∀ c ∈ l, c.toNat < 128)
    (h : ∀ v ∈ tokenVals l, v < 256) :
    text_with_icons_to_bytes l = some (iconScan l) ∧
    (tokenVals l = [] → iconScan l = l.map (fun c => c.toNat &&& 127)) := by
  constructor
  · unfold text_with_icons_to_bytes
    rw [if_pos]
    rw [List.all_eq_true]
    intro x hx
    exact decide_eq_true (iconScanF_lt_of_tokenValsF l.length l h x hx)
  · intro htok
    exact iconScanF_literal l.length l (le_refl _) htok

/-- C7 witness: the amended theorem applied to the malformed all-ASCII
input `"[icon:]x"` (no digits, so the regex does not match anywhere). -/
theorem C7_witness :
    ((∀ c ∈ (['[', 'i', 'c', 'o', 'n', ':', ']', 'x'] : List Char), c.toNat < 128) ∧
     (∀ v ∈ tokenVals ['[', 'i', 'c', 'o', 'n', ':', ']', 'x'], v < 256)) ∧
    (text_with_icons_to_bytes ['[', 'i', 'c', 'o', 'n', ':', ']', 'x'] =
       some (iconScan ['[', 'i', 'c', 'o', 'n', ':', ']', 'x']) ∧
     (tokenVals ['[', 'i', 'c', 'o', 'n', ':', ']', 'x'] = [] →
       iconScan ['[', 'i', 'c', 'o', 'n', ':', ']', 'x'] =
         (['[', 'i', 'c', 'o', 'n', ':', ']', 'x'] : List Char).map
           (fun c => c.toNat &&& 127))) :=
  ⟨⟨by decide, by decide⟩, C7_amended _ (by decide) (by decide)⟩

/-! ## Settings snapshot and wire codec (notify.py, glance_pb2)

`SettingsSnapshot` is the nine-field record of notify.py's
`settings_dict`.  The repository imports a generated protobuf module
`glance_pb2` that is not under src/, so its `Settings` serializer and
parser are modelled from the spec ("schema-serialized structure
(protocol-buffer-style binary encoding)"): varint-encoded fields with
tags 1–9 in order, every field emitted, parser being the exact inverse
of the serializer on its canonical output. -/

structure SettingsSnapshot where
  nightModeEnabled : Bool
  pointsAlwaysEnabled : Bool
  displayBrightness : Nat
  timeModeEnable : Bool
  timeFormat12 : Bool
  permanentDND : Bool
  permanentMute : Bool
  dateFormat : Nat
  mgrUserActivityTimeout : Nat
  deriving DecidableEq

/-- Partial settings: the `settings_data` dict passed to
`async_write_settings` — each field either absent or carrying a new value. -/
structure SettingsPatch where
  nightModeEnabled : Option Bool := none
  pointsAlwaysEnabled : Option Bool := none
  displayBrightness : Option Nat := none
  timeModeEnable : Option Bool := none
  timeFormat12 : Option Bool := none
  permanentDND : Option Bool := none
  permanentMute : Option Bool := none
  dateFormat : Option Nat := none
  mgrUserActivityTimeout : Option Nat := none
  deriving DecidableEq

/-- The hard-coded fallback snapshot of `async_write_settings` (used when the
pre-write read fails). -/
def defaultSettings : SettingsSnapshot where
  nightModeEnabled := true
  pointsAlwaysEnabled := false
  displayBrightness := 128
  timeModeEnable := true
  timeFormat12 := false
  permanentDND := false
  permanentMute := false
  dateFormat := 0
  mgrUserActivityTimeout := 600

/-- The read-modify-write merge `updated_settings = current.copy();
updated_settings.update(settings_data)`: fields present in the patch win,
absent fields keep the base value. -/
def mergeSettings (sd : SettingsPatch) (base : SettingsSnapshot) : SettingsSnapshot where
  nightModeEnabled := sd.nightModeEnabled.getD base.nightModeEnabled
  pointsAlwaysEnabled := sd.pointsAlwaysEnabled.getD base.pointsAlwaysEnabled
  displayBrightness := sd.displayBrightness.getD base.displayBrightness
  timeModeEnable := sd.timeModeEnable.getD base.timeModeEnable
  timeFormat12 := sd.timeFormat12.getD base.timeFormat12
  permanentDND := sd.permanentDND.getD base.permanentDND
  permanentMute := sd.permanentMute.getD base.permanentMute
  dateFormat := sd.dateFormat.getD base.dateFormat
  mgrUserActivityTimeout := sd.mgrUserActivityTimeout.getD base.mgrUserActivityTimeout

/-- Modelled from the spec: protobuf base-128 varint encoding (little-endian
7-bit groups, continuation bit on all but the last).  `fuel = n` suffices
because the quotient `n / 128` strictly decreases. -/
def encodeVarintF : Nat → Nat → List Nat
  | 0, n => [n]
  | fuel + 1, n =>
    if n < 128 then [n] else (n % 128 + 128) :: encodeVarintF fuel (n / 128)

/-- Varint encoding of a natural number. -/
def encodeVarint (n : Nat) : List Nat :=
  encodeVarintF n n

/-- Modelled from the spec: protobuf varint decoding, returning the value and
the remaining bytes. -/
def decodeVarint : List Nat → Option (Nat × List Nat)
  | [] => none
  | b :: rest =>
    if b < 128 then some (b, rest)
    else
      match decodeVarint rest with
      | some (v, rest2) => some (b - 128 + 128 * v, rest2)
      | none => none

lemma decodeVarint_encodeVarintF (fuel : Nat) :
    ∀ (n : Nat) (l : List Nat), n ≤ fuel →
      decodeVarint (encodeVarintF fuel n ++ l) = some (n, l) := by
  induction fuel with
  | zero =>
    intro n l hn
    have hz : n = 0 := by omega
    subst hz
    simp [encodeVarintF, decodeVarint]
  | succ fuel ih =>
    intro n l hn
    by_cases h : n < 128
    · simp [encodeVarintF, h, decodeVarint]
    · have hrec : n / 128 ≤ fuel := by
        have := Nat.div_lt_self (by omega : 0 < n) (by norm_num : 1 < 128)
        omega
      simp only [encodeVarintF, if_neg h, List.cons_append, decodeVarint,
        if_neg (by omega : ¬ (n % 128 + 128 < 128)), ih (n / 128) l hrec]
      simp only [Option.some.injEq, Prod.mk.injEq, and_true]
      omega

lemma decodeVarint_encodeVarint (n : Nat) (l : List Nat) :
    decodeVarint (encodeVarint n ++ l) = some (n, l) :=
  decodeVarint_encodeVarintF n n l (le_refl n)

lemma decodeVarint_encodeVarint_nil (n : Nat) :
    decodeVarint (encodeVarint n) = some (n, []) := by
  have h := decodeVarint_encodeVarint n []
  rwa [List.append_nil] at h

/-- Read one expected field: the tag byte followed by a varint value. -/
def readField (tag : Nat) (l : List Nat) : Option (Nat × List Nat) :=
  match l with
  | b :: r => if b = tag then decodeVarint r else none
  | [] => none

lemma readField_encode (tag v : Nat) (l : List Nat) :
    readField tag (tag :: (encodeVarint v ++ l)) = some (v, l) := by
  simp [readField, decodeVarint_encodeVarint]

lemma readField_encode_nil (tag v : Nat) :
    readField tag (tag :: encodeVarint v) = some (v, []) := by
  simp [readField, decodeVarint_encodeVarint_nil]

/-- Modelled from the spec: serialization of the nine-field `Settings`
protobuf message (tags 1–9, wire type 0, in declaration order, every field
emitted; booleans as 0/1). -/
def encodeSettingsPB (s : SettingsSnapshot) : List Nat :=
  8 :: (encodeVarint s.nightModeEnabled.toNat ++
  (16 :: (encodeVarint s.pointsAlwaysEnabled.toNat ++
  (24 :: (encodeVarint s.displayBrightness ++
  (32 :: (encodeVarint s.timeModeEnable.toNat ++
  (40 :: (encodeVarint s.timeFormat12.toNat ++
  (48 :: (encodeVarint s.permanentDND.toNat ++
  (56 :: (encodeVarint s.permanentMute.toNat ++
  (64 :: (encodeVarint s.dateFormat ++
  (72 :: encodeVarint s.mgrUserActivityTimeout))))))))))))))))

/-- Modelled from the spec: parser for the canonical `Settings` serialization
(inverse of `encodeSettingsPB`); any other byte stream is a decode error. -/
def parseSettingsPB (l : List Nat) : Option SettingsSnapshot := do
  let (v1, l1) ← readField 8 l
  let (v2, l2) ← readField 16 l1
  let (v3, l3) ← readField 24 l2
  let (v4, l4) ← readField 32 l3
  let (v5, l5) ← readField 40 l4
  let (v6, l6) ← readField 48 l5
  let (v7, l7) ← readField 56 l6
  let (v8, l8) ← readField 64 l7
  let (v9, l9) ← readField 72 l8
  if l9.isEmpty then
    pure { nightModeEnabled := v1 != 0, pointsAlwaysEnabled := v2 != 0,
           displayBrightness := v3, timeModeEnable := v4 != 0,
           timeFormat12 := v5 != 0, permanentDND := v6 != 0,
           permanentMute := v7 != 0, dateFormat := v8,
           mgrUserActivityTimeout := v9 }
  else none

lemma toNat_bne_zero (b : Bool) : (b.toNat != 0) = b := by
  cases b <;> rfl

lemma parse_encode (s : SettingsSnapshot) :
    parseSettingsPB (encodeSettingsPB s) = some s := by
  simp [parseSettingsPB, encodeSettingsPB, readField_encode, readField_encode_nil,
        toNat_bne_zero]

lemma encode_ne_nil (s : SettingsSnapshot) : encodeSettingsPB s ≠ [] := by
  simp [encodeSettingsPB]

/-- Embedding of the framing dispatch of `async_read_current_settings`
(notify.py lines 277–290): strip 5 bytes after a `b'Data'` tag, strip the
single leading `0x05` byte, otherwise leave the payload untouched. -/
def stripFrame (raw : List Nat) : List Nat :=
  if 0 < raw.length then
    if raw.take 4 = [68, 97, 116, 97] then raw.drop 5
    else if raw.headD 0 = 5 then raw.drop 1
    else raw
  else raw

/-- The decode tail of `async_read_current_settings`: framing strip, the
emptiness check, then the protobuf parse (`none` = "settings unavailable"). -/
def decodeSettings (raw : List Nat) : Option SettingsSnapshot :=
  if (stripFrame raw).length = 0 then none else parseSettingsPB (stripFrame raw)

lemma stripFrame_data (filler : Nat) (p : List Nat) :
    stripFrame (68 :: 97 :: 116 :: 97 :: filler :: p) = p := by
  simp [stripFrame]

lemma stripFrame_five (p : List Nat) : stripFrame (5 :: p) = p := by
  simp [stripFrame]

lemma stripFrame_encode (s : SettingsSnapshot) :
    stripFrame (encodeSettingsPB s) = encodeSettingsPB s := by
  simp [stripFrame, encodeSettingsPB]

/-! ## Connection manager model (bluetooth/connection_manager.py)

The transport is the "connected, cooperative fake transport that echoes
writes" of the spec's testable properties: while connected, every write
succeeds (the write-with-response path), a settings-write command
`[5,0,0,0] ++ payload` replaces the fake device's stored settings, and
reading the settings characteristic returns the stored settings framed
with the single `0x05` length/type byte.  When not connected, the source's
`send_command` makes one inline `_connect()` attempt; the model records the
attempt without establishing a connection (no settled claim ever reaches
this branch — the command-service guards return first, which is claim C10). -/

/-- Observable transport events of one operation. -/
inductive Event where
  | connectAttempt
  | write (bytes : List Nat)
  deriving DecidableEq

/-- State of one `GlanceClockConnectionManager` together with the fake
device: connection flag, the device's current settings, and the settings
cache `(_cached_settings, _settings_read_time)`. -/
structure ManagerState where
  connected : Bool
  device : SettingsSnapshot
  cache : Option (SettingsSnapshot × Nat)
  deriving DecidableEq

/-- Embedding of `get_cached_settings` at current time `t`: the cached value
only while younger than 60 seconds. -/
def getCachedSettings (st : ManagerState) (t : Nat) : Option SettingsSnapshot :=
  match st.cache with
  | some (s, t0) => if t - t0 < 60 then some s else none
  | none => none

/-- Embedding of `cache_settings`: store the snapshot stamped with now. -/
def cacheSettings (st : ManagerState) (s : SettingsSnapshot) (t : Nat) : ManagerState :=
  { st with cache := some (s, t) }

/-- Embedding of `clear_settings_cache`.  Defined in the source but never
invoked by any operation — in particular not by `async_write_settings`. -/
def clearSettingsCache (st : ManagerState) : ManagerState :=
  { st with cache := none }

/-- Effect of a written command on the fake echoing device: a settings-write
frame `[5,0,0,0] ++ payload` replaces the stored settings; every other
command (notices, timers, forecasts, bare control bytes) leaves them as is. -/
def applySettingsWrite (st : ManagerState) (cmd : List Nat) : ManagerState :=
  match cmd with
  | 5 :: 0 :: 0 :: 0 :: payload =>
    match parseSettingsPB payload with
    | some s => { st with device := s }
    | none => st
  | _ => st

/-- Embedding of `send_command` over the cooperative transport: connected
writes succeed; a disconnected call makes one inline connect attempt and
fails. -/
def sendCommand (st : ManagerState) (cmd : List Nat) : Bool × ManagerState × List Event :=
  if st.connected then (true, applySettingsWrite st cmd, [Event.write cmd])
  else (false, st, [Event.connectAttempt])

lemma applyWrite_35 (st : ManagerState) : applySettingsWrite st [35] = st := rfl

lemma applyWrite_61 (st : ManagerState) : applySettingsWrite st [61] = st := rfl

lemma applyWrite_settings (st : ManagerState) (payload : List Nat) :
    applySettingsWrite st (5 :: 0 :: 0 :: 0 :: payload) =
      match parseSettingsPB payload with
      | some s => { st with device := s }
      | none => st := rfl

/-! ## Command service (notify.py) -/

/-- The connectivity guard shared by every send operation:
`not self._connection_manager or not self._connection_manager.is_connected`. -/
def guardConnected (mgr : Option ManagerState) : Bool :=
  match mgr with
  | some st => st.connected
  | none => false

/-- Core of `async_read_current_settings` for a present manager: cache
first, then the connectivity check, then the characteristic read (the fake
transport returns the device settings framed with `0x05`), the framing
strip, the emptiness check, the protobuf parse, and finally `cache_settings`
on success. -/
def readCurrentSettingsCore (st : ManagerState) (t : Nat) :
    Option SettingsSnapshot × ManagerState :=
  match getCachedSettings st t with
  | some s => (some s, st)
  | none =>
    if st.connected then
      let pb := stripFrame (5 :: encodeSettingsPB st.device)
      if pb.length = 0 then (none, st)
      else
        match parseSettingsPB pb with
        | some s => (some s, cacheSettings st s t)
        | none => (none, st)
    else (none, st)

/-- Embedding of `async_read_current_settings` (the cache is consulted
whenever a manager exists, even if disconnected). -/
def async_read_current_settings (mgr : Option ManagerState) (t : Nat) :
    Option SettingsSnapshot × Option ManagerState :=
  match mgr with
  | none => (none, none)
  | some st =>
    let p := readCurrentSettingsCore st t
    (p.1, some p.2)

/-- Embedding of `async_update_data`: guarded send of the bare priming
command 35. -/
def async_update_data (mgr : Option ManagerState) :
    Bool × Option ManagerState × List Event :=
  match mgr with
  | none => (false, none, [])
  | some st =>
    if st.connected then
      let r := sendCommand st [35]
      (r.1, some r.2.1, r.2.2)
    else (false, some st, [])

/-- Embedding of `async_brightness_scene_start`: guarded send of the bare
command 61. -/
def async_brightness_scene_start (mgr : Option ManagerState) :
    Bool × Option ManagerState × List Event :=
  match mgr with
  | none => (false, none, [])
  | some st =>
    if st.connected then
      let r := sendCommand st [61]
      (r.1, some r.2.1, r.2.2)
    else (false, some st, [])

/-- Embedding of `async_brightness_scene_stop`: guarded send of the bare
command 60 (scheduled 3 s after a brightness write; the delay itself is not
modelled — it touches neither the settings nor the cache). -/
def async_brightness_scene_stop (mgr : Option ManagerState) :
    Bool × Option ManagerState × List Event :=
  match mgr with
  | none => (false, none, [])
  | some st =>
    if st.connected then
      let r := sendCommand st [60]
      (r.1, some r.2.1, r.2.2)
    else (false, some st, [])

/-- Body of `async_write_settings` past its connectivity guard: the priming
command (61 for brightness changes, 35 otherwise, result ignored), the
pre-write read (defaulting to `defaultSettings` on failure), the merge, and
the settings-write frame `[5,0,0,0] ++ serialize(merged)`. -/
def writeSettingsCore (st : ManagerState) (sd : SettingsPatch) (t : Nat) :
    Bool × ManagerState × List Event :=
  let prim :=
    if sd.displayBrightness.isSome then async_brightness_scene_start (some st)
    else async_update_data (some st)
  let st1 := prim.2.1.getD st
  let read := readCurrentSettingsCore st1 t
  let base := read.1.getD defaultSettings
  let upd := mergeSettings sd base
  let send := sendCommand read.2 ([5, 0, 0, 0] ++ encodeSettingsPB upd)
  (send.1, send.2.1, prim.2.2 ++ send.2.2)

/-- Embedding of `async_write_settings`: the guard, then the
read-modify-write core.  On success with a brightness change the source
additionally schedules `async_brightness_scene_stop` after 3 seconds; that
delayed task affects neither the settings nor the cache and is not
modelled. -/
def async_write_settings (mgr : Option ManagerState) (sd : SettingsPatch) (t : Nat) :
    Bool × Option ManagerState × List Event :=
  match mgr with
  | none => (false, none, [])
  | some st =>
    if st.connected then
      let r := writeSettingsCore st sd t
      (r.1, some r.2.1, r.2.2)
    else (false, some st, [])

/-! Run lemmas: the concrete behaviour of one read and one write over the
connected echoing transport. -/

lemma readCore_fresh_device (d0 : SettingsSnapshot) (t : Nat) :
    readCurrentSettingsCore ⟨true, d0, none⟩ t =
      (some d0, ⟨true, d0, some (d0, t)⟩) := by
  simp [readCurrentSettingsCore, getCachedSettings, stripFrame_five, parse_encode,
        cacheSettings, encode_ne_nil]

lemma readCore_stale_cache (d dc : SettingsSnapshot) (t tr : Nat) (h : t + 60 ≤ tr) :
    readCurrentSettingsCore ⟨true, d, some (dc, t)⟩ tr =
      (some d, ⟨true, d, some (d, tr)⟩) := by
  have hc : getCachedSettings ⟨true, d, some (dc, t)⟩ tr = none := by
    simp only [getCachedSettings]
    rw [if_neg (by omega)]
  simp [readCurrentSettingsCore, hc, stripFrame_five, parse_encode,
        cacheSettings, encode_ne_nil]

lemma write_run (d0 : SettingsSnapshot) (sd : SettingsPatch) (t : Nat) :
    async_write_settings (some ⟨true, d0, none⟩) sd t =
      (true, some ⟨true, mergeSettings sd d0, some (d0, t)⟩,
       [Event.write (if sd.displayBrightness.isSome then [61] else [35]),
        Event.write (5 :: 0 :: 0 :: 0 :: encodeSettingsPB (mergeSettings sd d0))]) := by
  cases hB : sd.displayBrightness <;>
    simp [async_write_settings, writeSettingsCore, async_update_data,
          async_brightness_scene_start, sendCommand, applyWrite_35, applyWrite_61,
          applyWrite_settings, readCore_fresh_device, parse_encode, hB]

/-- C5 (confirmed): for every settings payload (a serialized snapshot `s`),
the decode strips the 5-byte `'Data' + filler` prefix, strips the 1-byte
`0x05` prefix, and strips nothing from the bare payload; all three framed
inputs decode to the same snapshot `s`. -/
theorem C5_framing_decode (s : SettingsSnapshot) (filler : Nat) :
    stripFrame (68 :: 97 :: 116 :: 97 :: filler :: encodeSettingsPB s) =
      encodeSettingsPB s ∧
    stripFrame (5 :: encodeSettingsPB s) = encodeSettingsPB s ∧
    stripFrame (encodeSettingsPB s) = encodeSettingsPB s ∧
    decodeSettings (68 :: 97 :: 116 :: 97 :: filler :: encodeSettingsPB s) = some s ∧
    decodeSettings (5 :: encodeSettingsPB s) = some s ∧
    decodeSettings (encodeSettingsPB s) = some s := by
  refine ⟨stripFrame_data filler _, stripFrame_five _, stripFrame_encode s, ?_, ?_, ?_⟩ <;>
    simp [decodeSettings, stripFrame_data, stripFrame_five, stripFrame_encode,
          parse_encode, encode_ne_nil]

/-- C1 counterexample: over a connected echoing transport with device
settings `defaultSettings` (where `timeFormat12 = false`) and an empty
cache, `writeSettings {timeFormat12 := true}` succeeds, yet the immediately
following `readSettings()` returns `timeFormat12 = false` — the pre-write
value, served from the cache that the write itself populated — so fields
named in the patch do NOT carry the new value. -/
theorem C1_counterexample :
    (async_write_settings (some ⟨true, defaultSettings, none⟩)
        { timeFormat12 := some true } 0).1 = true ∧
    ((async_read_current_settings
        (async_write_settings (some ⟨true, defaultSettings, none⟩)
            { timeFormat12 := some true } 0).2.1 0).1.map
      (fun s => s.timeFormat12)) = some false := by
  decide

/-- C1 (corrected): over a connected echoing transport with an empty cache,
`writeSettings(partial)` succeeds, but an immediately following
`readSettings()` is served by the cache the write populated and returns the
PRE-write snapshot; only once the 60-second cache window has passed does
`readSettings()` return the merged snapshot, in which every field named in
`partial` has the new value and every other field keeps the pre-write
snapshot's value. -/
theorem C1_amended (d0 : SettingsSnapshot) (sd : SettingsPatch) (t tr : Nat)
    (h : t + 60 ≤ tr) :
    (async_write_settings (some ⟨true, d0, none⟩) sd t).1 = true ∧
    (async_read_current_settings
        (async_write_settings (some ⟨true, d0, none⟩) sd t).2.1 t).1 = some d0 ∧
    (async_read_current_settings
        (async_write_settings (some ⟨true, d0, none⟩) sd t).2.1 tr).1 =
      some (mergeSettings sd d0) ∧
    ((mergeSettings sd d0).nightModeEnabled =
        sd.nightModeEnabled.getD d0.nightModeEnabled ∧
     (mergeSettings sd d0).pointsAlwaysEnabled =
        sd.pointsAlwaysEnabled.getD d0.pointsAlwaysEnabled ∧
     (mergeSettings sd d0).displayBrightness =
        sd.displayBrightness.getD d0.displayBrightness ∧
     (mergeSettings sd d0).timeModeEnable =
        sd.timeModeEnable.getD d0.timeModeEnable ∧
     (mergeSettings sd d0).timeFormat12 =
        sd.timeFormat12.getD d0.timeFormat12 ∧
     (mergeSettings sd d0).permanentDND =
        sd.permanentDND.getD d0.permanentDND ∧
     (mergeSettings sd d0).permanentMute =
        sd.permanentMute.getD d0.permanentMute ∧
     (mergeSettings sd d0).dateFormat =
        sd.dateFormat.getD d0.dateFormat ∧
     (mergeSettings sd d0).mgrUserActivityTimeout =
        sd.mgrUserActivityTimeout.getD d0.mgrUserActivityTimeout) := by
  rw [write_run]
  refine ⟨rfl, ?_, ?_, rfl, rfl, rfl, rfl, rfl, rfl, rfl, rfl, rfl⟩
  · have hc : getCachedSettings ⟨true, mergeSettings sd d0, some (d0, t)⟩ t = some d0 := by
      simp only [getCachedSettings]
      rw [if_pos (by omega)]
    simp [async_read_current_settings, readCurrentSettingsCore, hc]
  · simp [async_read_current_settings, readCore_stale_cache _ _ _ _ h]

/-- C1 witness: the amended theorem applied with device `defaultSettings`,
patch `{timeFormat12 := true}`, write at `t = 0` and late read at `tr = 60`. -/
theorem C1_witness :
    (0 + 60 ≤ 60) ∧
    ((async_write_settings (some ⟨true, defaultSettings, none⟩)
        { timeFormat12 := some true } 0).1 = true ∧
     (async_read_current_settings
        (async_write_settings (some ⟨true, defaultSettings, none⟩)
            { timeFormat12 := some true } 0).2.1 0).1 = some defaultSettings ∧
     (async_read_current_settings
        (async_write_settings (some ⟨true, defaultSettings, none⟩)
            { timeFormat12 := some true } 0).2.1 60).1 =
       some (mergeSettings { timeFormat12 := some true } defaultSettings) ∧
     ((mergeSettings { timeFormat12 := some true } defaultSettings).nightModeEnabled =
        (({ timeFormat12 := some true } : SettingsPatch)).nightModeEnabled.getD
          defaultSettings.nightModeEnabled ∧
      (mergeSettings { timeFormat12 := some true } defaultSettings).pointsAlwaysEnabled =
        (({ timeFormat12 := some true } : SettingsPatch)).pointsAlwaysEnabled.getD
          defaultSettings.pointsAlwaysEnabled ∧
      (mergeSettings { timeFormat12 := some true } defaultSettings).displayBrightness =
        (({ timeFormat12 := some true } : SettingsPatch)).displayBrightness.getD
          defaultSettings.displayBrightness ∧
      (mergeSettings { timeFormat12 := some true } defaultSettings).timeModeEnable =
        (({ timeFormat12 := some true } : SettingsPatch)).timeModeEnable.getD
          defaultSettings.timeModeEnable ∧
      (mergeSettings { timeFormat12 := some true } defaultSettings).timeFormat12 =
        (({ timeFormat12 := some true } : SettingsPatch)).timeFormat12.getD
          defaultSettings.timeFormat12 ∧
      (mergeSettings { timeFormat12 := some true } defaultSettings).permanentDND =
        (({ timeFormat12 := some true } : SettingsPatch)).permanentDND.getD
          defaultSettings.permanentDND ∧
      (mergeSettings { timeFormat12 := some true } defaultSettings).permanentMute =
        (({ timeFormat12 := some true } : SettingsPatch)).permanentMute.getD
          defaultSettings.permanentMute ∧
      (mergeSettings { timeFormat12 := some true } defaultSettings).dateFormat =
        (({ timeFormat12 := some true } : SettingsPatch)).dateFormat.getD
          defaultSettings.dateFormat ∧
      (mergeSettings { timeFormat12 := some true } defaultSettings).mgrUserActivityTimeout =
        (({ timeFormat12 := some true } : SettingsPatch)).mgrUserActivityTimeout.getD
          defaultSettings.mgrUserActivityTimeout)) :=
  ⟨by decide, C1_amended defaultSettings { timeFormat12 := some true } 0 60 (by decide)⟩

/-- C2 counterexample: a successful `writeSettings {timeFormat12 := true}`
leaves the cache holding the pre-write snapshot (`timeFormat12 = false`)
while the device now holds `timeFormat12 = true` — the cache still serves
the pre-write snapshot after the write, so the write neither invalidated
nor updated it. -/
theorem C2_counterexample :
    (async_write_settings (some ⟨true, defaultSettings, none⟩)
        { timeFormat12 := some true } 0).1 = true ∧
    ((async_write_settings (some ⟨true, defaultSettings, none⟩)
        { timeFormat12 := some true } 0).2.1.bind
      (fun st => getCachedSettings st 0)) = some defaultSettings ∧
    defaultSettings.timeFormat12 = false ∧
    ((async_write_settings (some ⟨true, defaultSettings, none⟩)
        { timeFormat12 := some true } 0).2.1.map
      (fun st => st.device.timeFormat12)) = some true := by
  decide

/-- C2 (corrected): a successful `writeSettings` never touches the settings
cache: the only cache update is performed by the read inside its own
read-modify-write step, which stores the PRE-write snapshot stamped at the
write time, and that stale value keeps being served for the rest of its
60-second window. -/
theorem C2_amended (d0 : SettingsSnapshot) (sd : SettingsPatch) (t tr : Nat)
    (hle : t ≤ tr) (hlt : tr < t + 60) :
    (async_write_settings (some ⟨true, d0, none⟩) sd t).1 = true ∧
    (async_write_settings (some ⟨true, d0, none⟩) sd t).2.1 =
      some ⟨true, mergeSettings sd d0, some (d0, t)⟩ ∧
    ((async_write_settings (some ⟨true, d0, none⟩) sd t).2.1.bind
      (fun st => getCachedSettings st tr)) = some d0 := by
  rw [write_run]
  refine ⟨rfl, rfl, ?_⟩
  show (if tr - t < 60 then some d0 else none) = some d0
  rw [if_pos (by omega)]

/-- C2 witness: the amended theorem applied with device `defaultSettings`,
patch `{timeFormat12 := true}`, write at `t = 0`, cache probed at `tr = 59`. -/
theorem C2_witness :
    ((0 : Nat) ≤ 59 ∧ (59 : Nat) < 0 + 60) ∧
    ((async_write_settings (some ⟨true, defaultSettings, none⟩)
        { timeFormat12 := some true } 0).1 = true ∧
     (async_write_settings (some ⟨true, defaultSettings, none⟩)
        { timeFormat12 := some true } 0).2.1 =
       some ⟨true, mergeSettings { timeFormat12 := some true } defaultSettings,
             some (defaultSettings, 0)⟩ ∧
     ((async_write_settings (some ⟨true, defaultSettings, none⟩)
        { timeFormat12 := some true } 0).2.1.bind
       (fun st => getCachedSettings st 59)) = some defaultSettings) :=
  ⟨⟨by decide, by decide⟩,
   C2_amended defaultSettings { timeFormat12 := some true } 0 59 (by decide) (by decide)⟩

/-! ## Notice / timer / forecast payloads and their guarded send operations

The payload bodies are schema-serialized by the missing generated module;
they are modelled from the spec's wire layout (protocol-buffer-style:
varint fields, length-delimited nested messages/bytes). -/

/-- Modelled from the spec: a varint-typed protobuf field. -/
def encodeVarintField (fieldNum v : Nat) : List Nat :=
  fieldNum * 8 :: encodeVarint v

/-- Modelled from the spec: a length-delimited protobuf field. -/
def encodeLenField (fieldNum : Nat) (payload : List Nat) : List Nat :=
  (fieldNum * 8 + 2) :: (encodeVarint payload.length ++ payload)

/-- Modelled from the spec: a signed protobuf field (64-bit two's-complement
varint, as protobuf encodes negative integers). -/
def encodeVarintFieldI (fieldNum : Nat) (v : Int) : List Nat :=
  encodeVarintField fieldNum (v % (2 ^ 64 : Int)).toNat

/-- Modelled from the spec: the `TextData{text, modificators}` message. -/
def encodeTextDataPB (text : List Nat) (modifiers : Nat) : List Nat :=
  encodeLenField 1 text ++ encodeVarintField 2 modifiers

/-- Modelled from the spec: the `Notice{type, sound, color, text}` message. -/
def encodeNoticePB (animation sound color : Nat) (text : List Nat)
    (textModifier : Nat) : List Nat :=
  encodeVarintField 1 animation ++ encodeVarintField 2 sound ++
  encodeVarintField 3 color ++ encodeLenField 4 (encodeTextDataPB text textModifier)

/-- Modelled from the spec: one `Timer` interval
`{duration, countdown, text}`. -/
def encodeTimerIntervalPB (text : List Nat) (duration countdown : Nat) : List Nat :=
  encodeVarintField 1 duration ++ encodeVarintField 2 countdown ++
  encodeLenField 3 (encodeTextDataPB text 0)

/-- Modelled from the spec: the `Timer{countdown, intervals, finalText}`
message. -/
def encodeTimerPB (countdown : Nat) (intervals : List (List Nat × Nat × Nat))
    (finalTexts : List (List Nat)) : List Nat :=
  encodeVarintField 1 countdown ++
  (intervals.map (fun iv => encodeLenField 2 (encodeTimerIntervalPB iv.1 iv.2.1 iv.2.2))).join ++
  (finalTexts.map (fun ft => encodeLenField 3 (encodeTextDataPB ft 0))).join

/-- Modelled from the spec: the `ForecastScene{timestamp, max, min, maxColor,
minColor, values, template}` message. -/
def encodeForecastScenePB (timestamp maxTemp minTemp : Int)
    (maxColor minColor : Nat) (values tpl : List Nat) : List Nat :=
  encodeVarintFieldI 1 timestamp ++ encodeVarintFieldI 2 maxTemp ++
  encodeVarintFieldI 3 minTemp ++ encodeVarintField 4 maxColor ++
  encodeVarintField 5 minColor ++ encodeLenField 6 values ++ encodeLenField 7 tpl

/-- One entry of `async_send_timer`'s `intervals` argument: the dict
`{text, duration, countdown}` (with `.get` defaults). -/
structure TimerInterval where
  text : List Char := []
  duration : Nat := 0
  countdown : Nat := 0

/-- Embedding of `async_send_notice` (notify.py lines 165–227): the
connectivity guard, the text/icon encoding (whose `bytes()` may raise — the
surrounding `except` turns that into `False`), the `[2, priority, 0, 0]`
header (a priority above 255 makes `bytearray` raise, also `False`), and
the send. -/
def async_send_notice (mgr : Option ManagerState) (text : List Char)
    (animation sound color priority textModifier : Nat) :
    Bool × Option ManagerState × List Event :=
  match mgr with
  | none => (false, none, [])
  | some st =>
    if st.connected then
      match text_with_icons_to_bytes text with
      | none => (false, some st, [])
      | some tb =>
        if priority < 256 then
          let r := sendCommand st
            ([2, priority, 0, 0] ++ encodeNoticePB animation sound color tb textModifier)
          (r.1, some r.2.1, r.2.2)
        else (false, some st, [])
    else (false, some st, [])

/-- Embedding of `async_send_timer` (notify.py lines 21–102): the
connectivity guard, the per-interval and final-text encodings (any `bytes()`
failure is caught and yields `False`), the `[3, 0, 0, 0]` header, and the
send. -/
def async_send_timer (mgr : Option ManagerState) (countdown : Nat)
    (intervals : List TimerInterval) (finalTexts : List (List Char)) :
    Bool × Option ManagerState × List Event :=
  match mgr with
  | none => (false, none, [])
  | some st =>
    if st.connected then
      match intervals.mapM (fun iv =>
              (text_with_icons_to_bytes iv.text).map
                (fun tb => (tb, iv.duration, iv.countdown))),
            finalTexts.mapM text_with_icons_to_bytes with
      | some ivs, some fts =>
        let r := sendCommand st ([3, 0, 0, 0] ++ encodeTimerPB countdown ivs fts)
        (r.1, some r.2.1, r.2.2)
      | _, _ => (false, some st, [])
    else (false, some st, [])

/-- Embedding of `async_send_forecast` (notify.py lines 489–585): the
connectivity guard, the default template `[194, 143, 8, 194, 176, 67]`, the
priming `async_update_data` (result ignored), the
`[7, 16, 24, 1]` header, and the send. -/
def async_send_forecast (mgr : Option ManagerState) (maxTemp minTemp : Int)
    (maxColor minColor : Nat) (values : List Nat) (startTimestamp : Int)
    (template : Option (List Nat)) : Bool × Option ManagerState × List Event :=
  match mgr with
  | none => (false, none, [])
  | some st =>
    if st.connected then
      let tpl := template.getD [194, 143, 8, 194, 176, 67]
      let prim := async_update_data (some st)
      let st1 := prim.2.1.getD st
      let r := sendCommand st1
        ([7, 16, 24, 1] ++
         encodeForecastScenePB startTimestamp maxTemp minTemp maxColor minColor values tpl)
      (r.1, some r.2.1, prim.2.2 ++ r.2.2)
    else (false, some st, [])

/-- C10 (confirmed): whenever the connection manager is absent or reports
not connected, each of the four Command Service send operations returns
`false` immediately with an empty transport-event trace — no bytes are
written and the Link Manager's inline connect-on-send is never reached. -/
theorem C10_guarded_sends (mgr : Option ManagerState)
    (text : List Char) (animation sound color priority textModifier : Nat)
    (countdown : Nat) (intervals : List TimerInterval) (finalTexts : List (List Char))
    (maxTemp minTemp : Int) (maxColor minColor : Nat) (values : List Nat)
    (startTimestamp : Int) (template : Option (List Nat))
    (sd : SettingsPatch) (t : Nat)
    (h : guardConnected mgr = false) :
    async_send_notice mgr text animation sound color priority textModifier =
      (false, mgr, []) ∧
    async_send_timer mgr countdown intervals finalTexts = (false, mgr, []) ∧
    async_send_forecast mgr maxTemp minTemp maxColor minColor values
      startTimestamp template = (false, mgr, []) ∧
    async_write_settings mgr sd t = (false, mgr, []) := by
  cases mgr with
  | none =>
    exact ⟨rfl, rfl, rfl, rfl⟩
  | some st =>
    have hc : st.connected = false := by
      simpa [guardConnected] using h
    refine ⟨?_, ?_, ?_, ?_⟩ <;>
      simp [async_send_notice, async_send_timer, async_send_forecast,
            async_write_settings, hc]

/-- C10 witness: all four operations applied to an absent connection
manager. -/
theorem C10_witness :
    guardConnected none = false ∧
    (async_send_notice none ['H', 'i'] 1 0 12 16 0 = (false, none, []) ∧
     async_send_timer none 60 [] [] = (false, none, []) ∧
     async_send_forecast none 30 0 16711680 255 [] 0 none = (false, none, []) ∧
     async_write_settings none { displayBrightness := some 10 } 0 =
       (false, none, [])) :=
  ⟨by decide,
   C10_guarded_sends none ['H', 'i'] 1 0 12 16 0 60 [] [] 30 0 16711680 255 [] 0
     none { displayBrightness := some 10 } 0 (by decide)⟩

/-! ## Reconnect backoff (bluetooth/connection_manager.py, `_connect`)

The exception handler of `_connect` (lines 226–244): increment
`_reconnect_attempts`; if still under `_max_reconnect_attempts = 3`, sleep
`30 * attempts` seconds; otherwise sleep 300 seconds and reset the counter
to 0.  The maintenance loop then retries, forever. -/

/-- The source's `_max_reconnect_attempts`. -/
def maxReconnectAttempts : Nat := 3

/-- One failed connect attempt: from the current `_reconnect_attempts`
counter, the sleep before the next attempt and the counter afterwards. -/
def connectFailureStep (attempts : Nat) : Nat × Nat :=
  let a := attempts + 1
  if a < maxReconnectAttempts then (30 * a, a) else (300, 0)

/-- Counter value after `k` consecutive failures starting from a reset
counter (0). -/
def attemptsAfter : Nat → Nat
  | 0 => 0
  | k + 1 => (connectFailureStep (attemptsAfter k)).2

/-- Sleep performed right after the `k`-th consecutive failure (1-based). -/
def failureDelay (k : Nat) : Nat :=
  (connectFailureStep (attemptsAfter (k - 1))).1

lemma attemptsAfter_mod (k : Nat) : attemptsAfter k = k % 3 := by
  induction k with
  | zero => rfl
  | succ k ih =>
    rw [attemptsAfter, ih]
    simp only [connectFailureStep, maxReconnectAttempts]
    split <;> dsimp only <;> omega

/-- C8 (confirmed): in a run of consecutive connect failures from a reset
counter, the `k`-th failure with `k < 3` is followed by a `30 * k` second
sleep (linear backoff); every third failure is followed by the 300-second
cooldown with the counter reset to 0; and the whole schedule repeats with
period 3 — retrying continues indefinitely. -/
theorem C8_backoff (k : Nat) (hk : 1 ≤ k) :
    (k < 3 → failureDelay k = 30 * k ∧ attemptsAfter k = k) ∧
    (k % 3 = 0 → failureDelay k = 300 ∧ attemptsAfter k = 0) ∧
    (k % 3 ≠ 0 → failureDelay k = 30 * (k % 3) ∧ attemptsAfter k = k % 3) ∧
    failureDelay (k + 3) = failureDelay k := by
  have hd : ∀ j : Nat, 1 ≤ j → failureDelay j =
      if j % 3 = 0 then 300 else 30 * (j % 3) := by
    intro j hj
    unfold failureDelay
    rw [attemptsAfter_mod]
    simp only [connectFailureStep, maxReconnectAttempts]
    split <;> split <;> dsimp only <;> omega
  refine ⟨?_, ?_, ?_, ?_⟩
  · intro h3
    rw [hd k hk, attemptsAfter_mod]
    rw [if_neg (by omega)]
    omega
  · intro h0
    rw [hd k hk, attemptsAfter_mod, if_pos h0]
    omega
  · intro hne
    rw [hd k hk, attemptsAfter_mod, if_neg hne]
    omega
  · rw [hd k hk, hd (k + 3) (by omega)]
    have : (k + 3) % 3 = k % 3 := by omega
    rw [this]

/-- C8 witness: the backoff theorem applied at the third consecutive
failure. -/
theorem C8_witness :
    (1 ≤ 3) ∧
    ((3 < 3 → failureDelay 3 = 30 * 3 ∧ attemptsAfter 3 = 3) ∧
     (3 % 3 = 0 → failureDelay 3 = 300 ∧ attemptsAfter 3 = 0) ∧
     (3 % 3 ≠ 0 → failureDelay 3 = 30 * (3 % 3) ∧ attemptsAfter 3 = 3 % 3) ∧
     failureDelay (3 + 3) = failureDelay 3) :=
  ⟨by decide, C8_backoff 3 (by decide)⟩

/-! ## Forecast builder (services/forecast.py)

One hourly forecast record is reduced to what `_process_forecast_data`
inspects: whether the entry is a dict at all, its hour-truncated local
timestamp (`none` when the `datetime` field is missing, falsy, or fails to
parse), and its `temperature` field (`missing` = absent or of a
non-numeric type, `invalid` = a string that fails `float()`, `val t` = a
value with `int(float(temp)) = t`). -/

inductive TempField where
  | missing
  | invalid
  | val (t : Int)
  deriving DecidableEq

inductive FEntry where
  | notDict
  | entry (hour : Option Int) (temp : TempField)
  deriving DecidableEq

/-- The index-scan loop of `_process_forecast_data` (lines 167–202):
`i` is the enumeration counter, `found` whether `first_forecast_time` has
been set, `idx` the running `current_hour_index`.  The first entry whose
hour is `≥` the current hour wins and breaks; otherwise the index of the
first parseable entry (or 0) remains. -/
def findStartIndexAux : List FEntry → Int → Nat → Bool → Nat → Nat
  | [], _, _, _, idx => idx
  | e :: rest, ch, i, found, idx =>
    match e with
    | FEntry.notDict => findStartIndexAux rest ch (i + 1) found idx
    | FEntry.entry none _ => findStartIndexAux rest ch (i + 1) found idx
    | FEntry.entry (some h) _ =>
      if ch ≤ h then i
      else if found then findStartIndexAux rest ch (i + 1) found idx
      else findStartIndexAux rest ch (i + 1) true i

/-- The `current_hour_index` selected for the forecast slice. -/
def findStartIndex (forecast : List FEntry) (ch : Int) : Nat :=
  findStartIndexAux forecast ch 0 false 0

/-- The slice-and-pad step (lines 205–207): take up to 24 entries from the
start index, then repeat the ORIGINAL list's last element until 24 entries
(no padding when the input list is empty). -/
def forecast24h (forecast : List FEntry) (ch : Int) : List FEntry :=
  let slice := (forecast.drop (findStartIndex forecast ch)).take 24
  match forecast.getLast? with
  | none => slice
  | some last => slice ++ List.replicate (24 - slice.length) last

/-- The temperature-extraction loop over `forecast_24h[:23]` (lines
210–230): non-dict entries are SKIPPED, missing/unparsable temperatures
append the placeholder 20 WITHOUT updating the running forecast min/max,
valid values append and update.  Returns
`(forecast_temps, forecast_max_temp, forecast_min_temp)`. -/
def extractTemps (entries : List FEntry) : List Int × Option Int × Option Int :=
  entries.foldl
    (fun acc e =>
      match e with
      | FEntry.notDict => acc
      | FEntry.entry _ TempField.missing => (acc.1 ++ [20], acc.2.1, acc.2.2)
      | FEntry.entry _ TempField.invalid => (acc.1 ++ [20], acc.2.1, acc.2.2)
      | FEntry.entry _ (TempField.val tv) =>
        (acc.1 ++ [tv],
         some (match acc.2.1 with | none => tv | some m => if tv > m then tv else m),
         some (match acc.2.2 with | none => tv | some m => if tv < m then tv else m)))
    ([], none, none)

/-- Python's `min(list)` for the nonempty lists this pipeline produces. -/
def listMin : List Int → Int
  | [] => 0
  | a :: r => r.foldl min a

/-- Python's `max(list)` for the nonempty lists this pipeline produces. -/
def listMax : List Int → Int
  | [] => 0
  | a :: r => r.foldl max a

/-- Embedding of `_process_forecast_data` (lines 152–263): returns
`(temps, actual_min, actual_max, forecast_min, forecast_max)`.  The current
reading, when present, becomes slot 0 AND extends `forecast_max` /
`forecast_min` whenever it lies outside the forecast-only range
(lines 245–250); when absent, slot 0 falls back to the first forecast
value or the placeholder. -/
def processForecastData (forecast : List FEntry) (ch : Int)
    (currentTemp : Option Int) : List Int × Int × Int × Option Int × Option Int :=
  let e := extractTemps ((forecast24h forecast ch).take 23)
  let first :=
    match currentTemp with
    | some cv =>
      ([cv],
       some (match e.2.1 with | none => cv | some m => if cv > m then cv else m),
       some (match e.2.2 with | none => cv | some m => if cv < m then cv else m))
    | none => ([e.1.headD 20], e.2.1, e.2.2)
  let temps1 := first.1 ++ e.1
  let temps2 := temps1 ++ List.replicate (24 - temps1.length) (temps1.getLastD 20)
  let temps := temps2.take 24
  (temps, listMin temps, listMax temps, first.2.2, first.2.1)

/-- The values the pipeline yields before the pad-to-24 loop: slot 0
followed by the extracted forecast temperatures. -/
def unpaddedTemps (forecast : List FEntry) (ch : Int)
    (currentTemp : Option Int) : List Int :=
  let e := extractTemps ((forecast24h forecast ch).take 23)
  (match currentTemp with
   | some cv => [cv]
   | none => [e.1.headD 20]) ++ e.1

/-- Python's `x or d` over an optional integer (`None` AND the integer 0
are both falsy). -/
def pyOrI (x : Option Int) (d : Int) : Int :=
  match x with
  | none => d
  | some v => if v = 0 then d else v

/-- Embedding of `_calculate_gradient_colors` (lines 285–307): user bounds
when BOTH are supplied, otherwise the forecast pair with falsy-or defaults
0/30; the endpoint colors are the interpolation evaluated at the DATA
extremes against the chosen range. -/
def calculateGradientColors (actualMin actualMax : Int) (fmin fmax : Option Int)
    (userMin userMax : Option Int) (minColor maxColor : Nat) :
    Int × Int × Nat × Nat :=
  let gm :=
    match userMin, userMax with
    | some a, some b => (a, b)
    | _, _ => (pyOrI fmin 0, pyOrI fmax 30)
  (gm.1, gm.2,
   interpolate_color (actualMin : ℚ) (gm.1 : ℚ) (gm.2 : ℚ) minColor maxColor,
   interpolate_color (actualMax : ℚ) (gm.1 : ℚ) (gm.2 : ℚ) minColor maxColor)

lemma take_append_replicate (l : List Int) (x : Int) :
    (l ++ List.replicate (24 - l.length) x).take 24 =
      (l ++ List.replicate 24 x).take 24 := by
  rw [List.take_append_eq_append_take, List.take_append_eq_append_take,
      List.take_replicate, List.take_replicate]
  congr 2
  omega

/-- C4 (confirmed): for every input forecast sequence (any length, 0, 1,
23, 24, 100, ... included, non-dict and unparsable entries included) and
any current reading, the built temperature array has exactly 24 slots, and
it equals the yielded values padded by repetition of their last element
and truncated at 24 — longer sequences never contribute more than 24. -/
theorem C4_always_24_slots (forecast : List FEntry) (ch : Int) (c : Option Int) :
    (processForecastData forecast ch c).1.length = 24 ∧
    (processForecastData forecast ch c).1 =
      (unpaddedTemps forecast ch c ++
        List.replicate 24 ((unpaddedTemps forecast ch c).getLastD 20)).take 24 := by
  have h1 : (processForecastData forecast ch c).1 =
      (unpaddedTemps forecast ch c ++
        List.replicate (24 - (unpaddedTemps forecast ch c).length)
          ((unpaddedTemps forecast ch c).getLastD 20)).take 24 := by
    cases c <;> rfl
  constructor
  · rw [h1]
    simp only [List.length_take, List.length_append, List.length_replicate]
    omega
  · rw [h1, take_append_replicate]

set_option maxRecDepth 8000 in
/-- C3 counterexample: with forecast temperatures `[10, 12]` (padded by
repetition) and current reading 50 outside their range, the reported
`forecast_max` is 50 — it INCLUDES the current reading — while the
forecast-only maximum is 12. -/
theorem C3_counterexample :
    (processForecastData
        [FEntry.entry (some 0) (TempField.val 10),
         FEntry.entry (some 0) (TempField.val 12)] 0 (some 50)).2.2.2.2 =
      some 50 ∧
    (processForecastData
        [FEntry.entry (some 0) (TempField.val 10),
         FEntry.entry (some 0) (TempField.val 12)] 0 none).2.2.2.2 =
      some 12 := by
  decide

/-- C3 (corrected): the reported `forecast_min`/`forecast_max` pair is the
forecast-only extreme EXTENDED by the current reading whenever one is
present (`forecast_max = max(forecast-only max, current)` and dually), so
it equals the forecast-only pair only when the current reading lies inside
that range; and when the caller supplies no gradient bounds, the gradient
range handed to the color interpolation is exactly this pair (with the
falsy-or defaults 0 and 30). -/
theorem C3_amended (forecast : List FEntry) (ch : Int) (cv : Int)
    (aminT amaxT : Int) (fminO fmaxO : Option Int) (minC maxC : Nat) :
    (processForecastData forecast ch (some cv)).2.2.2.2 =
      some (match (processForecastData forecast ch none).2.2.2.2 with
            | none => cv
            | some m => max m cv) ∧
    (processForecastData forecast ch (some cv)).2.2.2.1 =
      some (match (processForecastData forecast ch none).2.2.2.1 with
            | none => cv
            | some m => min m cv) ∧
    (calculateGradientColors aminT amaxT fminO fmaxO none none minC maxC).1 =
      pyOrI fminO 0 ∧
    (calculateGradientColors aminT amaxT fminO fmaxO none none minC maxC).2.1 =
      pyOrI fmaxO 30 := by
  refine ⟨?_, ?_, rfl, rfl⟩
  · have hP : (processForecastData forecast ch (some cv)).2.2.2.2 =
        some (match (extractTemps ((forecast24h forecast ch).take 23)).2.1 with
              | none => cv | some m => if cv > m then cv else m) := rfl
    have hN : (processForecastData forecast ch none).2.2.2.2 =
        (extractTemps ((forecast24h forecast ch).take 23)).2.1 := rfl
    rw [hP, hN]
    cases hE : (extractTemps ((forecast24h forecast ch).take 23)).2.1 with
    | none => rfl
    | some m =>
      simp only [Option.some.injEq]
      rcases max_cases m cv with ⟨h1, h2⟩ | ⟨h1, h2⟩ <;> rw [h1] <;> split <;> omega
  · have hP : (processForecastData forecast ch (some cv)).2.2.2.1 =
        some (match (extractTemps ((forecast24h forecast ch).take 23)).2.2 with
              | none => cv | some m => if cv < m then cv else m) := rfl
    have hN : (processForecastData forecast ch none).2.2.2.1 =
        (extractTemps ((forecast24h forecast ch).take 23)).2.2 := rfl
    rw [hP, hN]
    cases hE : (extractTemps ((forecast24h forecast ch).take 23)).2.2 with
    | none => rfl
    | some m =>
      simp only [Option.some.injEq]
      rcases min_cases m cv with ⟨h1, h2⟩ | ⟨h1, h2⟩ <;> rw [h1] <;> split <;> omega

end GlanceClock
